import Mathlib

/-!
Shallow embedding of `src/index.js` of insomnia-plugin-response-cookie:
the `run` entry point of the `responseCookie` template tag and its helpers
`parseOptions`, `resendRequest`, `getCookies` and `checkShouldResend`.

Modelling conventions:
* JavaScript's `undefined`/absent values become `Option`.
* Millisecond timestamps (`Date.now()`, `response.created`) are integers;
  `Date.now()` is passed explicitly as the `now` field of the context.
  The floating-point division `/ 1000` is modelled exactly in `ℚ`.
* JS string falsiness (`!s` is true for `undefined` and `""`) and the
  truthiness test `if (response.error)` are modelled explicitly.
* Thrown errors become an `Except` value with one constructor per `throw`
  site; `referenceError` and `typeError` model the untyped JavaScript
  runtime errors the code can raise (an undeclared identifier, and a
  property access on `undefined`).
* The external collaborators (request store, response store, transport,
  evaluation context) are finite tables carried in a `Ctx` record; the
  transport is observed through the list of calls `run` makes to it, and
  the contents of the side-channel `requestChain` array after `run`
  returns are recorded to make the in-place `push` mutation observable.
* `Cookie.parse` comes from the external `tough-cookie` package, not from
  this repository; it is modelled from the spec's description.
-/

/-- A `Set-Cookie` value parsed into a key/value pair (the attributes are
discarded), as consumed by `run` via `c.key` and `cookie.value`. -/
structure Cookie where
  key : String
  value : String
deriving DecidableEq, Repr

/-- One response header `{name, value}`. -/
structure Header where
  name : String
  value : String
deriving DecidableEq, Repr

/-- The attributes of a stored response that `run` reads:
`created` (millisecond timestamp), `statusCode`, `error`, `headers`. -/
structure Response where
  created : Int
  statusCode : Option Int
  error : Option String
  headers : List Header
deriving DecidableEq, Repr

/-- A request record; `run` only reads its `_id`. -/
structure Request where
  _id : String
deriving DecidableEq, Repr

/- The four recognized `triggerBehavior` values (`TriggerBehavior` in the
source). -/
namespace TriggerBehavior

def Never : String := "never"

def NoHistory : String := "no-history"

def WhenExpired : String := "when-expired"

def Always : String := "always"

end TriggerBehavior

/-- `defaultTriggerBehaviour = TriggerBehavior.Never` in the source. -/
def defaultTriggerBehaviour : String := TriggerBehavior.Never

/-- JavaScript `String.prototype.toLowerCase` on ASCII data. -/
def jsToLower (s : String) : String :=
  (s.toList.map Char.toLower).asString

/-- JavaScript falsiness of an optional string: `!s` holds for `undefined`
and for the empty string. -/
def strFalsy : Option String → Bool
  | none => true
  | some s => s = ""

/-- Truthiness of `response.error` in `if (response.error)`: a present,
non-empty string. -/
def errTruthy : Option String → Bool
  | none => false
  | some s => s ≠ ""

/-- Falsiness of `response.statusCode` in `if (!response.statusCode)`:
absent or zero. -/
def statusFalsy : Option Int → Bool
  | none => true
  | some n => n = 0

/-- The positional argument list the tag receives: `args[0]` the request
id, `args[1]` the cookie name, `args[2]` the trigger behavior, `args[3]`
`maxAgeSeconds`.  A missing entry is `none`. -/
structure Args where
  request : Option String
  cookieName : Option String
  triggerBehavior : Option String
  maxAgeSeconds : Option ℚ
deriving DecidableEq, Repr

/-- The record `parseOptions` builds. -/
structure Options where
  reqId : Option String
  cookieName : Option String
  triggerBehavior : String
  maxAgeSeconds : Option ℚ
deriving DecidableEq, Repr

/-- `parseOptions` from the source: positional extraction; `args[2] ||
defaultTriggerBehaviour` falls back on `undefined` and on the (falsy)
empty string, then is lowercased; `maxAgeSeconds` is taken as-is, with no
default. -/
def parseOptions (a : Args) : Options :=
  { reqId := a.request
    cookieName := a.cookieName
    triggerBehavior :=
      jsToLower (match a.triggerBehavior with
        | none => defaultTriggerBehaviour
        | some s => if s = "" then defaultTriggerBehaviour else s)
    maxAgeSeconds := a.maxAgeSeconds }

/-- `checkShouldResend` from the source: a switch on
`options.triggerBehavior` whose cases are `Always`, `NoHistory` and
`WhenExpired`, falling through to `return false` otherwise (also for
`Never`).  In the `WhenExpired` branch with a response present,
`ageSeconds = (Date.now() - response.created) / 1000` and the result is
`ageSeconds > options.maxAgeSeconds`; a JavaScript comparison with an
absent `maxAgeSeconds` is false. -/
def checkShouldResend (now : Int) (response : Option Response)
    (options : Options) : Bool :=
  if options.triggerBehavior = TriggerBehavior.Always then
    true
  else if options.triggerBehavior = TriggerBehavior.NoHistory then
    response.isNone
  else if options.triggerBehavior = TriggerBehavior.WhenExpired then
    match response with
    | none => true
    | some r =>
      let ageSeconds : ℚ := ((now : ℚ) - (r.created : ℚ)) / 1000
      match options.maxAgeSeconds with
      | none => false
      | some m => ageSeconds > m
  else
    false

/-- Modelled from the spec: `Cookie.parse` of the external `tough-cookie`
package, absent from this repository.  Per the spec's step 7, a header
value is parsed as one cookie, `name=value` plus attributes with the
attributes discarded; a value whose first `;`-segment has no `=` fails to
parse (the parser yields `undefined`). -/
def Cookie.parseChars : List Char → Option (List Char × List Char)
  | [] => none
  | c :: cs =>
    if c = ';' then none
    else if c = '=' then some ([], cs.takeWhile (fun d => d ≠ ';'))
    else (Cookie.parseChars cs).map (fun p => (c :: p.1, p.2))

/-- Strips leading and trailing spaces, as the external parser does around
the cookie name and value. -/
def trimChars (l : List Char) : List Char :=
  ((l.dropWhile (fun c => c = ' ')).reverse.dropWhile (fun c => c = ' ')).reverse

/-- Modelled from the spec: entry point of the external cookie parser. -/
def Cookie.parse (s : String) : Option Cookie :=
  (Cookie.parseChars s.toList).map
    (fun p => ⟨(trimChars p.1).asString, (trimChars p.2).asString⟩)

/-- `getCookies` from the source: keep the headers whose lowercased name
is `set-cookie` and map `Cookie.parse` over their values.  A parse
failure stays in the list as `none` (JavaScript `map` keeps the
`undefined`). -/
def getCookies (response : Response) : List (Option Cookie) :=
  (response.headers.filter (fun h => jsToLower h.name = "set-cookie")).map
    (fun h => Cookie.parse h.value)

/-- One error per `throw` site of `run`, plus the two untyped JavaScript
runtime errors it can raise. -/
inductive RunError where
  /-- "No request specified" -/
  | missingRequest : RunError
  /-- "No cookie specified" -/
  | missingCookieName : RunError
  /-- The `request not found` branch evaluates the template string
  containing the undeclared identifier `reqId`, so JavaScript raises
  `ReferenceError: reqId is not defined` instead of the intended message. -/
  | referenceError (name : String) : RunError
  /-- "No responses for request" -/
  | noResponse : RunError
  /-- "Failed to send dependent request " + response.error -/
  | dependencyFailed (msg : String) : RunError
  /-- "No successful responses for request" -/
  | noSuccessfulResponse : RunError
  /-- "No cookies set for response" -/
  | noCookies : RunError
  /-- The `CookieNotFound` message, listing the available cookie names. -/
  | cookieNotFound (msg : String) : RunError
  /-- Reading `.key` of an `undefined` array element raises a `TypeError`. -/
  | typeError : RunError
deriving DecidableEq, Repr

/-- The evaluation of `cookies.filter((c) => c.key == options.cookieName)`:
the predicate is applied to every element in order, and raises a
`TypeError` at the first element that is `undefined` (a parse failure);
otherwise the matching cookies are collected in order.  A comparison with
an absent cookie name is false. -/
def filterCookies (name : Option String) :
    List (Option Cookie) → Except RunError (List Cookie)
  | [] => .ok []
  | none :: _ => .error .typeError
  | some c :: rest =>
    match filterCookies name rest with
    | .error e => .error e
    | .ok tail =>
      match name with
      | some n => if c.key = n then .ok (c :: tail) else .ok tail
      | none => .ok tail

/-- Steps of `run` from the `if (!response)` check onward: validation of
the response and cookie extraction.  `run` is `finishRun` applied to the
response that survives the conditional resend step. -/
def finishRun (options : Options) (response : Option Response) :
    Except RunError String :=
  match response with
  | none => .error .noResponse
  | some resp =>
    if errTruthy resp.error then
      .error (.dependencyFailed
        ("Failed to send dependent request " ++ resp.error.getD ""))
    else if statusFalsy resp.statusCode then
      .error .noSuccessfulResponse
    else
      let cookies := getCookies resp
      if cookies.length = 0 then
        .error .noCookies
      else
        match filterCookies options.cookieName cookies with
        | .error e => .error e
        | .ok [] =>
          let cookieNames :=
            String.intercalate ", " ((cookies.filterMap id).map Cookie.key)
          .error (.cookieNotFound
            ("No " ++ options.cookieName.getD "" ++
              " cookie for response. Choices are " ++ cookieNames ++ "."))
        | .ok (cookie :: _) => .ok cookie.value

/-- One recorded call to `context.network.sendRequest`: the id of the
request sent and the `{name: "requestChain", value: chain}` extra-info
entry forwarded with it. -/
structure TransportCall where
  requestId : String
  extraInfoName : String
  extraInfoValue : List String
deriving DecidableEq, Repr

/-- The evaluation context and the external collaborators `run` consults:
the request store, the response store (keyed by request id and
environment id), the environment id, `renderPurpose`, the side-channel
`requestChain` extra info (absent at the top level), the transport's
behaviour as a table from request id to its (possibly absent) result, and
the current time. -/
structure Ctx where
  requests : List Request
  responses : List ((String × String) × Response)
  environmentId : String
  renderPurpose : String
  requestChain : Option (List String)
  transport : List (String × Option Response)
  now : Int
deriving DecidableEq, Repr

/-- `context.util.models.request.getById`. -/
def getById (ctx : Ctx) (reqId : String) : Option Request :=
  ctx.requests.find? (fun r => r._id = reqId)

/-- `context.util.models.response.getLatestForRequestId`. -/
def getLatestForRequestId (ctx : Ctx) (requestId environmentId : String) :
    Option Response :=
  (ctx.responses.find? (fun e => e.1 = (requestId, environmentId))).map
    (fun e => e.2)

/-- `context.network.sendRequest`, observed through the transport table. -/
def sendRequest (ctx : Ctx) (requestId : String) : Option Response :=
  (ctx.transport.find? (fun e => e.1 = requestId)).bind (fun e => e.2)

/-- The outcome of `resendRequest`: its return value, the transport calls
it made, and the contents of the side-channel chain afterwards. -/
structure ResendResult where
  response : Option Response
  calls : List TransportCall
  chainAfter : Option (List String)
deriving DecidableEq, Repr

/-- `resendRequest` from the source.  It reads the chain via
`getExtraInfo("requestChain") || []`; when the request's id already
occurs in it, it returns `undefined` without calling the transport.
Otherwise `requestChain.push(request._id)` appends to the very array
obtained from the context — mutating the stored chain in place when one
exists (`chainAfter` records this); only when the store held no chain
does `|| []` create a fresh array.  The pushed-to chain is forwarded to
the transport as the `requestChain` extra-info entry. -/
def resendRequest (ctx : Ctx) (request : Request) : ResendResult :=
  let requestChain := ctx.requestChain.getD []
  if requestChain.any (fun id => id = request._id) then
    ⟨none, [], ctx.requestChain⟩
  else
    let newChain := requestChain ++ [request._id]
    ⟨sendRequest ctx request._id,
      [⟨request._id, "requestChain", newChain⟩],
      ctx.requestChain.map (fun _ => newChain)⟩

instance {ε α : Type} [DecidableEq ε] [DecidableEq α] :
    DecidableEq (Except ε α) := fun x y =>
  match x, y with
  | .ok a, .ok b =>
    if h : a = b then .isTrue (by rw [h]) else
      .isFalse (fun hc => h (by injection hc))
  | .error a, .error b =>
    if h : a = b then .isTrue (by rw [h]) else
      .isFalse (fun hc => h (by injection hc))
  | .ok _, .error _ => .isFalse (fun hc => by injection hc)
  | .error _, .ok _ => .isFalse (fun hc => by injection hc)

/-- What `run` produces: its return value or thrown error, the transport
calls it made, and the contents of the side-channel chain afterwards. -/
structure RunResult where
  result : Except RunError String
  transportCalls : List TransportCall
  chainAfter : Option (List String)
deriving DecidableEq, Repr

/-- `run` from the source, step by step: parse the options; reject a falsy
request id or cookie name; look the request up (the not-found branch
raises the `ReferenceError` described at `RunError.referenceError`);
fetch the latest response; decide via `checkShouldResend`; when the
decision is true and `renderPurpose === "send"`, call `resendRequest` and
keep the previous response if it returned nothing
(`(await resendRequest(...)) || response`); finally validate and extract
via `finishRun`. -/
def run (ctx : Ctx) (a : Args) : RunResult :=
  let options := parseOptions a
  if strFalsy options.reqId then
    ⟨.error .missingRequest, [], ctx.requestChain⟩
  else if strFalsy options.cookieName then
    ⟨.error .missingCookieName, [], ctx.requestChain⟩
  else
    match getById ctx (options.reqId.getD "") with
    | none => ⟨.error (.referenceError "reqId"), [], ctx.requestChain⟩
    | some request =>
      let response := getLatestForRequestId ctx request._id ctx.environmentId
      let shouldResend := checkShouldResend ctx.now response options
      if shouldResend ∧ ctx.renderPurpose = "send" then
        let rr := resendRequest ctx request
        ⟨finishRun options (rr.response.orElse (fun _ => response)),
          rr.calls, rr.chainAfter⟩
      else
        ⟨finishRun options response, [], ctx.requestChain⟩

/-! ## Theorems -/

/-- C2: `checkShouldResend` satisfies the full decision table: `Never`
yields `false` with and without a last response; `NoHistory` yields
`true` exactly when the last response is absent; `Always` yields `true`
in both cases; `WhenExpired` with an absent last response yields `true`;
and a `triggerBehavior` string whose case-insensitive normalization is
none of the four enum values yields `false` in both cases, without being
rejected. -/
theorem checkShouldResend_decision_table :
    (∀ (now : Int) (r : Option Response) (q c : Option String) (m : Option ℚ),
      checkShouldResend now r ⟨q, c, TriggerBehavior.Never, m⟩ = false)
    ∧ (∀ (now : Int) (q c : Option String) (m : Option ℚ),
      checkShouldResend now none ⟨q, c, TriggerBehavior.NoHistory, m⟩ = true)
    ∧ (∀ (now : Int) (resp : Response) (q c : Option String) (m : Option ℚ),
      checkShouldResend now (some resp) ⟨q, c, TriggerBehavior.NoHistory, m⟩
        = false)
    ∧ (∀ (now : Int) (r : Option Response) (q c : Option String) (m : Option ℚ),
      checkShouldResend now r ⟨q, c, TriggerBehavior.Always, m⟩ = true)
    ∧ (∀ (now : Int) (q c : Option String) (m : Option ℚ),
      checkShouldResend now none ⟨q, c, TriggerBehavior.WhenExpired, m⟩ = true)
    ∧ (∀ (s : String),
      jsToLower s ∉ [TriggerBehavior.Never, TriggerBehavior.NoHistory,
        TriggerBehavior.WhenExpired, TriggerBehavior.Always] →
      ∀ (now : Int) (r : Option Response) (rq cn : Option String)
        (ma : Option ℚ),
        checkShouldResend now r (parseOptions ⟨rq, cn, some s, ma⟩) = false) := by
  refine ⟨?_, ?_, ?_, ?_, ?_, ?_⟩
  · intro now r q c m
    cases r <;> rfl
  · intro now q c m
    rfl
  · intro now resp q c m
    rfl
  · intro now r q c m
    cases r <;> rfl
  · intro now q c m
    rfl
  · intro s hs now r rq cn ma
    by_cases he : s = ""
    · subst he
      cases r <;> rfl
    · have h1 : (parseOptions ⟨rq, cn, some s, ma⟩).triggerBehavior
          = jsToLower s := by
        simp [parseOptions, he]
      simp only [List.mem_cons, List.not_mem_nil, or_false, not_or] at hs
      obtain ⟨_, h3, h4, h5⟩ := hs
      simp [checkShouldResend, h1, h3, h4, h5]

/-- C2 witness: an unrecognized behavior string decides no resend. -/
theorem checkShouldResend_decision_table_witness :
    checkShouldResend 0 none
      (parseOptions ⟨some "r", some "c", some "Sometimes", none⟩) = false :=
  checkShouldResend_decision_table.2.2.2.2.2 "Sometimes" (by decide)
    0 none (some "r") (some "c") none

/-- C3: for `WhenExpired` with a present last response and
`maxAgeSeconds = M`, the decision is true iff the age in seconds,
`(now - created) / 1000` (the division modelled exactly in `ℚ`; the
comparison the code performs is on the computed quotient), is strictly
greater than `M`: it is false when the age equals `M` and true at
`M + ε` for every `ε > 0`. -/
theorem checkShouldResend_whenExpired_strict_age :
    ∀ (now : Int) (r : Response) (M : ℚ) (q c : Option String),
      (checkShouldResend now (some r) ⟨q, c, TriggerBehavior.WhenExpired, some M⟩
          = true
        ↔ ((now : ℚ) - (r.created : ℚ)) / 1000 > M)
      ∧ (((now : ℚ) - (r.created : ℚ)) / 1000 = M →
        checkShouldResend now (some r)
          ⟨q, c, TriggerBehavior.WhenExpired, some M⟩ = false)
      ∧ (∀ ε : ℚ, 0 < ε → ((now : ℚ) - (r.created : ℚ)) / 1000 = M + ε →
        checkShouldResend now (some r)
          ⟨q, c, TriggerBehavior.WhenExpired, some M⟩ = true) := by
  intro now r M q c
  have hb : checkShouldResend now (some r)
      ⟨q, c, TriggerBehavior.WhenExpired, some M⟩
      = decide (((now : ℚ) - (r.created : ℚ)) / 1000 > M) := rfl
  refine ⟨?_, ?_, ?_⟩
  · rw [hb]
    exact decide_eq_true_iff
  · intro h
    rw [hb, h]
    simp
  · intro ε hε h
    rw [hb, h]
    simp only [decide_eq_true_eq, gt_iff_lt]
    exact lt_add_of_pos_right M hε

/-- C3 witness: a response 1500 ms old with `maxAgeSeconds = 1` resends
(age `3/2 = 1 + 1/2`), and one exactly 1000 ms old does not (age `= 1`). -/
theorem checkShouldResend_whenExpired_strict_age_witness :
    checkShouldResend 2000 (some ⟨500, some 200, none, []⟩)
      ⟨some "r", some "c", TriggerBehavior.WhenExpired, some 1⟩ = true
    ∧ checkShouldResend 1000 (some ⟨0, some 200, none, []⟩)
      ⟨some "r", some "c", TriggerBehavior.WhenExpired, some 1⟩ = false :=
  ⟨(checkShouldResend_whenExpired_strict_age 2000 ⟨500, some 200, none, []⟩ 1
      (some "r") (some "c")).2.2 (1/2) (by norm_num) (by norm_num),
    (checkShouldResend_whenExpired_strict_age 1000 ⟨0, some 200, none, []⟩ 1
      (some "r") (some "c")).2.1 (by norm_num)⟩

/-- C6 counterexample: `parseOptions` applies no default to
`maxAgeSeconds`.  With `triggerBehavior = "when-expired"`, a present
response 120 seconds old and `maxAgeSeconds` absent, the decision is
`false`, while with `maxAgeSeconds = 60` it is `true` — so the decision
with the argument absent is not the decision with `60`. -/
theorem parseOptions_maxAge_no_default_counterexample :
    checkShouldResend 120000 (some ⟨0, some 200, none, []⟩)
      (parseOptions ⟨some "r", some "c", some "when-expired", none⟩) = false
    ∧ checkShouldResend 120000 (some ⟨0, some 200, none, []⟩)
      (parseOptions ⟨some "r", some "c", some "when-expired", some 60⟩)
        = true := by
  constructor
  · decide
  · have hb : checkShouldResend 120000 (some ⟨0, some 200, none, []⟩)
        (parseOptions ⟨some "r", some "c", some "when-expired", some 60⟩)
        = decide ((((120000 : Int) : ℚ) - (((0 : Int)) : ℚ)) / 1000
            > (60 : ℚ)) := rfl
    rw [hb]
    simp only [decide_eq_true_eq, gt_iff_lt]
    norm_num

/-- C6 amended: `parseOptions` passes `maxAgeSeconds` through with no
default (the declared default of 60 lives only in the tag's UI argument
declaration, outside `parseOptions`), and for `WhenExpired` with a
present last response and `maxAgeSeconds` absent the resend decision is
always `false` — the JavaScript comparison of the age with `undefined` —
not the decision `maxAgeSeconds = 60` would give. -/
theorem checkShouldResend_absent_maxAge_false :
    (∀ (rq cn tb : Option String),
      (parseOptions ⟨rq, cn, tb, none⟩).maxAgeSeconds = none)
    ∧ (∀ (now : Int) (r : Response) (q c : Option String),
      checkShouldResend now (some r)
        ⟨q, c, TriggerBehavior.WhenExpired, none⟩ = false) := by
  constructor
  · intro rq cn tb
    rfl
  · intro now r q c
    rfl

/-- C7: response validation proceeds in order and fails with exactly one
typed error: `NoResponse` when no response is available at all; otherwise
`DependencyFailed` (carrying the transport error in its message) when the
response has a truthy `error`; otherwise `NoSuccessfulResponse` when the
response has no status code — the conclusion is independent of the
headers, so it holds even when they contain parseable `Set-Cookie`
values. -/
theorem finishRun_validation_order :
    ∀ (options : Options),
      finishRun options none = .error .noResponse
      ∧ (∀ resp : Response, errTruthy resp.error = true →
        finishRun options (some resp)
          = .error (.dependencyFailed
              ("Failed to send dependent request " ++ resp.error.getD "")))
      ∧ (∀ resp : Response, errTruthy resp.error = false →
        resp.statusCode = none →
        finishRun options (some resp) = .error .noSuccessfulResponse) := by
  intro options
  refine ⟨rfl, ?_, ?_⟩
  · intro resp h
    simp [finishRun, h]
  · intro resp h1 h2
    simp [finishRun, h1, h2, statusFalsy]

/-- C7 witness: the three validation failures at concrete responses; the
third response carries a parseable `Set-Cookie: a=1` header and still
fails with `NoSuccessfulResponse`. -/
theorem finishRun_validation_order_witness :
    finishRun ⟨some "r", some "a", "never", none⟩ none = .error .noResponse
    ∧ finishRun ⟨some "r", some "a", "never", none⟩
        (some ⟨0, some 200, some "boom", []⟩)
        = .error (.dependencyFailed
            ("Failed to send dependent request "
              ++ ((some "boom" : Option String).getD "")))
    ∧ finishRun ⟨some "r", some "a", "never", none⟩
        (some ⟨0, none, none, [⟨"Set-Cookie", "a=1"⟩]⟩)
        = .error .noSuccessfulResponse :=
  ⟨(finishRun_validation_order ⟨some "r", some "a", "never", none⟩).1,
    (finishRun_validation_order ⟨some "r", some "a", "never", none⟩).2.1
      ⟨0, some 200, some "boom", []⟩ (by decide),
    (finishRun_validation_order ⟨some "r", some "a", "never", none⟩).2.2
      ⟨0, none, none, [⟨"Set-Cookie", "a=1"⟩]⟩ (by decide) rfl⟩

/-- C1: when the dependent request's own id already appears in the chain
read from the context's side-channel store, the transport is never
invoked and the previously known last response (possibly absent) is
validated and used as-is: `run`'s outcome is exactly `finishRun` on the
stored response, and `RunError` has no cycle variant, so the guard itself
surfaces no error. -/
theorem run_cycle_guard :
    ∀ (ctx : Ctx) (a : Args) (request : Request),
      strFalsy (parseOptions a).reqId = false →
      strFalsy (parseOptions a).cookieName = false →
      getById ctx ((parseOptions a).reqId.getD "") = some request →
      request._id ∈ ctx.requestChain.getD [] →
      (run ctx a).transportCalls = []
      ∧ (run ctx a).result
        = finishRun (parseOptions a)
            (getLatestForRequestId ctx request._id ctx.environmentId) := by
  intro ctx a request h1 h2 h3 hmem
  have hcycle : (ctx.requestChain.getD []).any
      (fun id => id = request._id) = true := by
    rw [List.any_eq_true]
    exact ⟨request._id, hmem, by simp⟩
  by_cases hsend : checkShouldResend ctx.now
      (getLatestForRequestId ctx request._id ctx.environmentId)
      (parseOptions a) = true ∧ ctx.renderPurpose = "send"
  · simp [run, h1, h2, h3, hsend, resendRequest, hcycle, Option.orElse]
  · simp [run, h1, h2, h3, hsend]

/-- A context whose side-channel chain already contains the dependent
request's id `r1`, with a transport that would answer for `r1`. -/
def ctxC1 : Ctx :=
  ⟨[⟨"r1"⟩], [], "env", "send", some ["r1"],
    [("r1", some ⟨0, some 200, none, [⟨"Set-Cookie", "a=1"⟩]⟩)], 0⟩

def argsC1 : Args := ⟨some "r1", some "session", some "always", none⟩

/-- C1 witness: in `ctxC1` the cycle guard fires, the transport is not
called, and the (absent) stored response is used as-is. -/
theorem run_cycle_guard_witness :
    (run ctxC1 argsC1).transportCalls = []
    ∧ (run ctxC1 argsC1).result
      = finishRun (parseOptions argsC1)
          (getLatestForRequestId ctxC1 "r1" ctxC1.environmentId) :=
  run_cycle_guard ctxC1 argsC1 ⟨"r1"⟩ (by decide) (by decide) (by decide)
    (by decide)

/-- C4: re-execution happens only when the resend decision is true and
`renderPurpose` is `"send"`: any other render purpose makes zero
transport calls, a false decision makes zero transport calls, and in a
preview with no prior response the run fails with `NoResponse`. -/
theorem run_preview_guard :
    ∀ (ctx : Ctx) (a : Args),
      (ctx.renderPurpose ≠ "send" → (run ctx a).transportCalls = [])
      ∧ (∀ request : Request,
        getById ctx ((parseOptions a).reqId.getD "") = some request →
        checkShouldResend ctx.now
          (getLatestForRequestId ctx request._id ctx.environmentId)
          (parseOptions a) = false →
        (run ctx a).transportCalls = [])
      ∧ (ctx.renderPurpose ≠ "send" →
        strFalsy (parseOptions a).reqId = false →
        strFalsy (parseOptions a).cookieName = false →
        ∀ request : Request,
          getById ctx ((parseOptions a).reqId.getD "") = some request →
          getLatestForRequestId ctx request._id ctx.environmentId = none →
          (run ctx a).result = .error .noResponse) := by
  intro ctx a
  refine ⟨?_, ?_, ?_⟩
  · intro hp
    by_cases h1 : strFalsy (parseOptions a).reqId = true
    · simp [run, h1]
    · by_cases h2 : strFalsy (parseOptions a).cookieName = true
      · simp [run, h1, h2]
      · match h3 : getById ctx ((parseOptions a).reqId.getD "") with
        | none => simp [run, h1, h2, h3]
        | some request =>
          have hns : ¬(checkShouldResend ctx.now
              (getLatestForRequestId ctx request._id ctx.environmentId)
              (parseOptions a) = true ∧ ctx.renderPurpose = "send") :=
            fun hc => hp hc.2
          simp [run, h1, h2, h3, hns]
  · intro request h3 hres
    by_cases h1 : strFalsy (parseOptions a).reqId = true
    · simp [run, h1]
    · by_cases h2 : strFalsy (parseOptions a).cookieName = true
      · simp [run, h1, h2]
      · have hns : ¬(checkShouldResend ctx.now
            (getLatestForRequestId ctx request._id ctx.environmentId)
            (parseOptions a) = true ∧ ctx.renderPurpose = "send") :=
          fun hc => absurd hc.1 (by simp [hres])
        simp [run, h1, h2, h3, hns]
  · intro hp h1 h2 request h3 hnone
    have hns : ¬(checkShouldResend ctx.now
        (getLatestForRequestId ctx request._id ctx.environmentId)
        (parseOptions a) = true ∧ ctx.renderPurpose = "send") :=
      fun hc => hp hc.2
    rw [hnone] at hns
    simp [run, h1, h2, h3, hns, hnone, finishRun]

/-- A preview-purpose context with no stored response but a transport
that would answer for `r1`. -/
def ctxC4 : Ctx :=
  ⟨[⟨"r1"⟩], [], "env", "preview", none,
    [("r1", some ⟨0, some 200, none, [⟨"Set-Cookie", "a=1"⟩]⟩)], 0⟩

def argsC4 : Args := ⟨some "r1", some "a", some "always", none⟩

/-- C4 witness: in the preview context the resend decision is true
(behavior `always`) yet no transport call happens and the run fails with
`NoResponse`. -/
theorem run_preview_guard_witness :
    (run ctxC4 argsC4).transportCalls = []
    ∧ (run ctxC4 argsC4).result = .error .noResponse :=
  ⟨(run_preview_guard ctxC4 argsC4).1 (by decide),
    (run_preview_guard ctxC4 argsC4).2.2 (by decide) (by decide) (by decide)
      ⟨"r1"⟩ (by decide) (by decide)⟩

/-- A context with `r1` already in the side-channel chain and a fresh
dependent request `r2`; behavior `always` and purpose `send` force
re-execution of `r2`. -/
def ctxC5 : Ctx :=
  ⟨[⟨"r2"⟩], [], "env", "send", some ["r1"],
    [("r2", some ⟨0, some 200, none, [⟨"Set-Cookie", "a=1"⟩]⟩)], 0⟩

def argsC5 : Args := ⟨some "r2", some "a", some "always", none⟩

/-- C5 counterexample: the chain object held in the side-channel store is
NOT left unchanged.  `resendRequest` calls `requestChain.push(request._id)`
on the very array `getExtraInfo("requestChain")` returned, so after `run`
the stored chain contains `["r1", "r2"]`, not the original `["r1"]`. -/
theorem run_chain_mutated_counterexample :
    (run ctxC5 argsC5).chainAfter ≠ ctxC5.requestChain
    ∧ (run ctxC5 argsC5).chainAfter = some ["r1", "r2"]
    ∧ ctxC5.requestChain = some ["r1"] := by
  decide

/-- C5 amended: when re-execution happens with a chain present in the
side-channel store, the dependent request's id is appended to that chain
in place — the stored chain object itself ends up extended — and the same
updated chain is forwarded to the transport as the `requestChain`
extra-info entry; the transport is invoked on the request. -/
theorem resendRequest_appends_in_place :
    ∀ (ctx : Ctx) (request : Request) (chain : List String),
      ctx.requestChain = some chain →
      request._id ∉ chain →
      (resendRequest ctx request).calls
        = [⟨request._id, "requestChain", chain ++ [request._id]⟩]
      ∧ (resendRequest ctx request).chainAfter
        = some (chain ++ [request._id])
      ∧ (resendRequest ctx request).response = sendRequest ctx request._id := by
  intro ctx request chain hchain hnotmem
  have hany : chain.any (fun id => id = request._id) = false := by
    rw [List.any_eq_false]
    intro x hx
    simp only [decide_eq_true_eq]
    intro he
    exact hnotmem (he ▸ hx)
  simp [resendRequest, hchain, hany]

/-- C5 amended witness: resending `r2` with stored chain `["r1"]` calls
the transport with chain `["r1", "r2"]` and leaves the stored chain
mutated to `["r1", "r2"]`. -/
theorem resendRequest_appends_in_place_witness :
    (resendRequest ctxC5 ⟨"r2"⟩).calls
      = [⟨"r2", "requestChain", ["r1"] ++ ["r2"]⟩]
    ∧ (resendRequest ctxC5 ⟨"r2"⟩).chainAfter = some (["r1"] ++ ["r2"])
    ∧ (resendRequest ctxC5 ⟨"r2"⟩).response = sendRequest ctxC5 "r2" :=
  resendRequest_appends_in_place ctxC5 ⟨"r2"⟩ ["r1"] (by decide) (by decide)

/-- On a list with no parse failures, the filter step collects, in order,
exactly the parsed cookies whose key matches. -/
theorem filterCookies_all_some (n : String) :
    ∀ (l : List (Option Cookie)), (∀ x ∈ l, x ≠ none) →
      filterCookies (some n) l
        = .ok ((l.filterMap id).filter (fun k => k.key = n)) := by
  intro l
  induction l with
  | nil => intro _; rfl
  | cons hd t ih =>
    intro h
    match hd with
    | none => exact absurd rfl (h none (List.mem_cons_self _ _))
    | some c =>
      have ht := ih (fun x hx => h x (List.mem_cons_of_mem _ hx))
      by_cases hk : c.key = n <;>
        simp [filterCookies, ht, hk, List.filterMap_cons, List.filter_cons]

/-- The head of the filtered list is the first match. -/
theorem filter_head_eq_find (p : Cookie → Bool) :
    ∀ l : List Cookie, (l.filter p).head? = l.find? p := by
  intro l
  induction l with
  | nil => rfl
  | cons hd t ih =>
    by_cases hp : p hd
    · simp [List.filter_cons, List.find?_cons, hp]
    · simp [List.filter_cons, List.find?_cons, hp, ih]

/-- C8: on a response that passes validation and whose `Set-Cookie`
values all parse, the selection returns the value of the first parsed
cookie, in header order, whose key exactly (case-sensitively) matches the
requested name; when none matches, it fails with `CookieNotFound` whose
message enumerates exactly the present cookie names in header order,
comma-and-space separated. -/
theorem finishRun_cookie_selection :
    ∀ (options : Options) (resp : Response) (name : String),
      options.cookieName = some name →
      errTruthy resp.error = false →
      statusFalsy resp.statusCode = false →
      (∀ x ∈ getCookies resp, x ≠ none) →
      getCookies resp ≠ [] →
      (∀ c : Cookie,
        ((getCookies resp).filterMap id).find? (fun k => k.key = name)
            = some c →
        finishRun options (some resp) = .ok c.value)
      ∧ (((getCookies resp).filterMap id).find? (fun k => k.key = name)
            = none →
        finishRun options (some resp)
          = .error (.cookieNotFound
              ("No " ++ name ++ " cookie for response. Choices are "
                ++ String.intercalate ", "
                  (((getCookies resp).filterMap id).map Cookie.key)
                ++ "."))) := by
  intro options resp name hname herr hstatus hsome hne
  have hfc : filterCookies (some name) (getCookies resp)
      = .ok (((getCookies resp).filterMap id).filter
          (fun k => k.key = name)) :=
    filterCookies_all_some name _ hsome
  constructor
  · intro c hfind
    have hh : (((getCookies resp).filterMap id).filter
        (fun k => k.key = name)).head? = some c := by
      rw [filter_head_eq_find]
      exact hfind
    match hl : ((getCookies resp).filterMap id).filter
        (fun k => k.key = name) with
    | [] =>
      rw [hl] at hh
      exact absurd hh (by simp)
    | c0 :: t =>
      rw [hl] at hh
      have hc0 : c0 = c := by simpa using hh
      rw [hl] at hfc
      simp [finishRun, herr, hstatus, hne, hname, hfc, hc0,
        List.length_eq_zero]
  · intro hfind
    have hnil : ((getCookies resp).filterMap id).filter
        (fun k => k.key = name) = [] := by
      have hh := filter_head_eq_find (fun k => k.key = name)
        ((getCookies resp).filterMap id)
      rw [hfind] at hh
      cases hl : ((getCookies resp).filterMap id).filter
          (fun k => k.key = name) with
      | nil => rfl
      | cons c0 t =>
        rw [hl] at hh
        exact absurd hh (by simp)
    rw [hnil] at hfc
    simp [finishRun, herr, hstatus, hne, hfc, hname, List.length_eq_zero]

/-- A validated response carrying `Set-Cookie: a=1` then `Set-Cookie: a=2`. -/
def respC8 : Response :=
  ⟨0, some 200, none, [⟨"Set-Cookie", "a=1"⟩, ⟨"Set-Cookie", "a=2"⟩]⟩

/-- C8 witness: requesting `a` from `respC8` returns `"1"` (first match in
header order), and requesting `b` fails with the message listing `a, a`. -/
theorem finishRun_cookie_selection_witness :
    finishRun ⟨some "r", some "a", "never", none⟩ (some respC8) = .ok "1"
    ∧ finishRun ⟨some "r", some "b", "never", none⟩ (some respC8)
      = .error (.cookieNotFound
          ("No " ++ "b" ++ " cookie for response. Choices are "
            ++ String.intercalate ", "
              (((getCookies respC8).filterMap id).map Cookie.key)
            ++ ".")) :=
  ⟨(finishRun_cookie_selection ⟨some "r", some "a", "never", none⟩ respC8 "a"
      rfl (by decide) (by decide) (by decide) (by decide)).1 ⟨"a", "1"⟩
      (by decide),
    (finishRun_cookie_selection ⟨some "r", some "b", "never", none⟩ respC8 "b"
      rfl (by decide) (by decide) (by decide) (by decide)).2 (by decide)⟩

/-- A context whose request store does not contain the referenced id. -/
def ctxC9 : Ctx := ⟨[], [], "env", "send", none, [], 0⟩

def argsC9 : Args := ⟨some "req_missing", some "session", none, none⟩

/-- C9, the code bug: when the request-store lookup returns nothing, line
83 of `src/index.js` evaluates the template string referencing the
undeclared identifier `reqId` (the parsed id lives in `options.reqId`),
so the evaluation fails with `ReferenceError: reqId is not defined` — an
untyped error that does not contain the request id — instead of the
intended `RequestNotFound` message `Could not find request <id>`. -/
theorem run_requestNotFound_referenceError :
    (run ctxC9 argsC9).result = .error (.referenceError "reqId") := by
  decide

/-- C10: when every `Set-Cookie` header of an otherwise-valid response
fails cookie parsing, the absent parse results still count toward the
non-emptiness check — the run does not fail with `NoCookies` — and the
key-matching step then reads `.key` of an `undefined` element, so the
evaluation fails with the untyped `TypeError`, which is none of the seven
specified error kinds. -/
theorem finishRun_unparsable_cookies :
    ∀ (options : Options) (resp : Response),
      errTruthy resp.error = false →
      statusFalsy resp.statusCode = false →
      getCookies resp ≠ [] →
      (∀ x ∈ getCookies resp, x = none) →
      finishRun options (some resp) = .error .typeError
      ∧ finishRun options (some resp) ≠ .error .noCookies := by
  intro options resp herr hstatus hne hall
  have hfc : filterCookies options.cookieName (getCookies resp)
      = .error .typeError := by
    match hl : getCookies resp with
    | [] => exact absurd hl hne
    | hd :: t =>
      have hhd : hd = none := hall hd (by rw [hl]; exact List.mem_cons_self _ _)
      rw [hhd]
      cases options.cookieName <;> rfl
  have hmain : finishRun options (some resp) = .error .typeError := by
    simp [finishRun, herr, hstatus, hne, hfc, List.length_eq_zero]
  refine ⟨hmain, ?_⟩
  rw [hmain]
  intro hc
  exact absurd hc (by decide)

/-- A validated response whose only `Set-Cookie` value has no `=` and so
fails to parse. -/
def respC10 : Response := ⟨0, some 200, none, [⟨"Set-Cookie", "garbage"⟩]⟩

/-- C10 witness: the unparsable `Set-Cookie: garbage` response fails with
the untyped `TypeError`, not with `NoCookies`. -/
theorem finishRun_unparsable_cookies_witness :
    finishRun ⟨some "r", some "a", "never", none⟩ (some respC10)
      = .error .typeError
    ∧ finishRun ⟨some "r", some "a", "never", none⟩ (some respC10)
      ≠ .error .noCookies :=
  finishRun_unparsable_cookies ⟨some "r", some "a", "never", none⟩ respC10
    (by decide) (by decide) (by decide) (by decide)
